import Mathlib

/-!
Shallow embedding of the maintenance-command protocol, the tracking tick and
the pre-initialization sensor callbacks of
`src/isaac_ros_visual_slam/src/impl/visual_slam_impl.cpp`
(class `VisualSlamNode::VisualSlamImpl`).

Modelling conventions:
* `boost::promise`/`boost::future` pairs are modelled by the promise's state,
  `Option α`: `none` is a pending (unresolved) promise, `some r` a resolved
  one.  A future tied to a promise is "ready" exactly when the promise state
  is `some _`; a blocking `future.get()` returns only once the state is
  `some _`.
* CUVSLAM status codes are an inductive type with one constructor per code
  the file mentions plus `other` for the rest of the engine's codes.
* Coordinate-frame conversions (`ChangeBasis`, `TocuVSLAMPose`,
  `FromcuVSLAMPose`, ...) are conversions of opaque payloads; poses are
  carried as opaque values.
-/

namespace VisualSlam

/-- The CUVSLAM status codes named by `visual_slam_impl.cpp`; every other
engine code is `other n`. -/
inductive CUVSLAM_Status where
  | success
  | trackingLost
  | slamNotInitialized
  | genericError
  | canNotLocalize
  | other (code : Nat)
deriving DecidableEq, Repr

/-- Opaque payload of a `CUVSLAM_Pose` (pose math is out of scope; only
identity of the value matters to the protocol). -/
abbrev CPose := Nat

/-- `SaveToSlamDbContext::Response` (visual_slam_impl.hpp): the status the
engine hands to `SaveToSlamDbResponse`. -/
structure SaveResponse where
  status : CUVSLAM_Status
deriving DecidableEq, Repr

/-- `SaveToSlamDbContext`: a promise for the save response.  `none` models a
promise whose value has not been set. -/
structure SaveToSlamDbContext where
  promise : Option SaveResponse
deriving DecidableEq, Repr

/-- `LocalizeInExistDbContext::Response`: status plus, on success, the pose
in the database (`pose_in_db` is only written when status is success). -/
structure LocResponse where
  status : CUVSLAM_Status
  poseInDb : Option CPose
deriving DecidableEq, Repr

/-- `LocalizeInExistDbContext`: the response promise and `pose_storage`, the
pose hint kept alive for the engine (line 1091). -/
structure LocalizeInExistDbContext where
  promise : Option LocResponse
  poseStorage : CPose
deriving DecidableEq, Repr

/-- A freshly constructed `LocalizeInExistDbContext()` (line 1044): pending
promise, default pose storage. -/
def freshLocalizeCtx : LocalizeInExistDbContext := { promise := none, poseStorage := 0 }

/-- `promise.set_value(v)` wrapped in `try { } catch { }` as `Exit` does
(lines 389-392): setting an already-satisfied promise throws, the exception
is swallowed, so the resolved value is kept and nothing else happens. -/
def trySetValue {α : Type} (p : Option α) (v : α) : Option α :=
  match p with
  | none => some v
  | some r => some r

/-- `VisualSlamImpl::LocalizeInExistDbResponse` (lines 1209-1219): builds the
response — `pose_in_db` copied only on success — and resolves the context's
promise.  At every call site of the source the context's promise is fresh,
so a plain `set_value` is modelled as writing the value. -/
def LocalizeInExistDbResponse (ctx : LocalizeInExistDbContext)
    (status : CUVSLAM_Status) (poseInDb : Option CPose) : LocalizeInExistDbContext :=
  { ctx with
    promise := some { status := status
                      poseInDb := if status = CUVSLAM_Status.success then poseInDb else none } }

/-- `VisualSlamImpl::SaveToSlamDbResponse` (lines 1198-1206): resolves the
save context's promise with the engine-delivered status. -/
def SaveToSlamDbResponse (ctx : SaveToSlamDbContext)
    (status : CUVSLAM_Status) : SaveToSlamDbContext :=
  { ctx with promise := some { status := status } }

/-- The observable outcome of one `VisualSlamImpl::SaveMap` call:
the returned status, whether `CUVSLAM_SaveToSlamDb` was invoked, and whether
the call blocked on `response_future.get()` before returning. -/
structure SaveMapRun where
  result : CUVSLAM_Status
  engineCalled : Bool
  waitedOnFuture : Bool
deriving DecidableEq, Repr

/-- `VisualSlamImpl::SaveMap` (lines 996-1036).
Inputs: the `enable_localization_n_mapping` parameter, the synchronous
status `CUVSLAM_SaveToSlamDb` returns, and the status the completion handler
eventually delivers (the value `response_future.get()` yields once
`SaveToSlamDbResponse` has run).  The context is a stack local of this call;
`context.response_promise.get_future()` on the fresh promise is valid, so
the `!response_future.valid()` guard (lines 1010-1013) is dead and elided.
`RCLCPP_*` logging has no modelled effect. -/
def SaveMap (enableLocalizationNMapping : Bool)
    (callResult : CUVSLAM_Status) (asyncResponse : CUVSLAM_Status) : SaveMapRun :=
  if !enableLocalizationNMapping then
    { result := CUVSLAM_Status.slamNotInitialized, engineCalled := false, waitedOnFuture := false }
  else if callResult ≠ CUVSLAM_Status.success then
    { result := callResult, engineCalled := true, waitedOnFuture := false }
  else
    { result := asyncResponse, engineCalled := true, waitedOnFuture := true }

/-- A directory entry of the map folder, as `CuvslamInternalLocalizeInMapAsync`
inspects it: regular-file flag and filename extension. -/
structure DirEntry where
  isRegularFile : Bool
  extension : String
deriving DecidableEq, Repr

/-- The map folder named by `map_folder_path`: whether
`std::filesystem::is_directory` holds and the entries its iterator yields. -/
structure MapFolder where
  isDirectory : Bool
  entries : List DirEntry
deriving DecidableEq, Repr

/-- The `.mdb` scan of lines 1065-1071: some entry is a regular file with
extension ".mdb". -/
def hasLmdbFiles (f : MapFolder) : Bool :=
  f.entries.any (fun e => e.isRegularFile && e.extension == ".mdb")

/-- The observable outcome of one `CuvslamInternalLocalizeInMapAsync` call:
the content the shared `localize_in_exist_db_context` slot holds on return
(the returned future reads this context's promise), and whether
`CUVSLAM_LocalizeInExistDb` was invoked. -/
structure LocalizeAsyncRun where
  ctx : LocalizeInExistDbContext
  engineCalled : Bool
deriving DecidableEq, Repr

/-- `VisualSlamImpl::CuvslamInternalLocalizeInMapAsync` (lines 1039-1114).
The shared context slot is overwritten with a fresh context first
(line 1044); each precondition failure resolves the fresh promise
synchronously through `LocalizeInExistDbResponse` and returns without
contacting the engine.  On the engine path the pose hint is stored and
`CUVSLAM_LocalizeInExistDb` is called; when its synchronous status
`callResult` is non-success the code only logs — the promise is left for
the engine's completion callback (comment at lines 1104-1105), so the
context still holds a pending promise on return. -/
def CuvslamInternalLocalizeInMapAsync (enableLocalizationNMapping : Bool)
    (folder : MapFolder) (poseHint : CPose)
    (callResult : CUVSLAM_Status) : LocalizeAsyncRun :=
  let ctx0 := freshLocalizeCtx
  if !enableLocalizationNMapping then
    { ctx := LocalizeInExistDbResponse ctx0 CUVSLAM_Status.slamNotInitialized none
      engineCalled := false }
  else if !folder.isDirectory then
    { ctx := LocalizeInExistDbResponse ctx0 CUVSLAM_Status.genericError none
      engineCalled := false }
  else if !hasLmdbFiles folder then
    { ctx := LocalizeInExistDbResponse ctx0 CUVSLAM_Status.genericError none
      engineCalled := false }
  else
    let _ := callResult  -- checked only for logging (lines 1102-1106)
    { ctx := { ctx0 with poseStorage := poseHint }, engineCalled := true }

/-- The command-related state of a `VisualSlamImpl` object together with the
stack-local context of a `SaveMap` call currently blocked on its future, if
one is in flight.  The impl object itself owns only
`localize_in_exist_db_context`; a `SaveMap` context is a local variable on
the blocked caller's stack (line 1008), carried here so that theorems can
speak about what `Exit` does — and does not do — to it. -/
structure ImplState where
  localizeCtx : LocalizeInExistDbContext
  saveCtxInFlight : Option SaveToSlamDbContext
deriving DecidableEq, Repr

/-- The command-protocol part of `VisualSlamImpl::Exit` (lines 385-393): a
response with status `CUVSLAM_CAN_NOT_LOCALIZE` is built and
`set_value` is attempted on the localize promise inside `try`/`catch`, so an
already-resolved promise keeps its value.  No statement of `Exit` refers to
any `SaveToSlamDbContext`, so an in-flight save context is untouched. -/
def ExitCommands (s : ImplState) : ImplState :=
  { s with
    localizeCtx :=
      { s.localizeCtx with
        promise := trySetValue s.localizeCtx.promise
          { status := CUVSLAM_Status.canNotLocalize, poseInDb := none } } }

/-- `CuvslamInternalLocalizeInMapAsync` as a transformer of the impl state:
line 1044 overwrites the shared slot, the rest of the body determines the
slot's content and the engine interaction. -/
def localizeInMapAsyncStep (s : ImplState) (enableLocalizationNMapping : Bool)
    (folder : MapFolder) (poseHint : CPose)
    (callResult : CUVSLAM_Status) : ImplState × LocalizeAsyncRun :=
  let run := CuvslamInternalLocalizeInMapAsync enableLocalizationNMapping folder
    poseHint callResult
  ({ s with localizeCtx := run.ctx }, run)

/-- A `boost::future` as `CheckLocalizationStatus` observes it: readiness
(`wait_for(0) == ready`) and the value a ready future's `get()` yields.  For
a pending future the stored `value` is not observable. -/
structure BFuture (α : Type) where
  ready : Bool
  value : α
deriving DecidableEq, Repr

/-- What `CheckLocalizationStatus` logs when it consumes a ready future:
success when the optional pose is present, failure otherwise. -/
inductive LocLog where
  | completedOk
  | failed
deriving DecidableEq, Repr

/-- `VisualSlamImpl::CheckLocalizationStatus` (lines 1176-1196), acting on
the `localization_future_` slot: when a future is stored and a zero-duration
`wait_for` reports it ready, its result is consumed (`get`, logged) and the
slot is cleared; otherwise the slot is left as it is and nothing is logged.
The function is total — it returns for every slot state, a pending future
included; the zero-timeout poll never waits for the future to become
ready. -/
def CheckLocalizationStatus (slot : Option (BFuture (Option CPose))) :
    Option (BFuture (Option CPose)) × Option LocLog :=
  match slot with
  | none => (none, none)
  | some f =>
    if f.ready then
      (none, some (match f.value with
        | some _ => LocLog.completedOk
        | none => LocLog.failed))
    else
      (some f, none)

/-- A 6-component real vector (x, y, z, roll, pitch, yaw or the linear and
angular parts of a twist). -/
abbrev Vec6 := Fin 6 → Rat

/-- A 6x6 covariance matrix, row-major as the ROS message stores it. -/
abbrev Cov := Fin 6 → Fin 6 → Rat

/-- The 6x6 identity matrix UpdatePose substitutes when a cache reports its
covariance unavailable (lines 862-867 and 874-880: `i == j ? 1 : 0`). -/
def idCov : Cov := fun i j => if i = j then 1 else 0

def vecZero : Vec6 := fun _ => 0

def vecSub (a b : Vec6) : Vec6 := fun i => a i - b i

def vecSmul (q : Rat) (a : Vec6) : Vec6 := fun i => q * a i

def vecSum (l : List Vec6) : Vec6 := l.foldr (fun a b => fun i => a i + b i) vecZero

/-- Modelled from the spec: sample statistics over the buffered vectors —
mean-centred second moments. -/
def sampleCovariance (l : List Vec6) : Cov :=
  let n : Rat := (l.length : Rat)
  let mean : Vec6 := vecSmul (1 / n) (vecSum l)
  fun i j => (l.map (fun p => (p i - mean i) * (p j - mean j))).sum / n

/-- Modelled from the spec: `PoseMotionCache` / the source's `pose_cache` —
its implementation is not under src/ (only its callers in
`visual_slam_impl.cpp` are).  "bounded history of timestamped poses"
(§2, §4.4): a fixed-capacity buffer, newest sample first, oldest evicted on
overflow; velocity is the finite difference of the two most recent samples
divided by their time delta (zero when fewer than two samples exist); the
covariance estimate is valid only once a minimum fill count is reached. -/
structure PoseCache where
  capacity : Nat
  minCount : Nat
  samples : List (Int × Vec6)
deriving DecidableEq

namespace PoseCache

/-- `pose_cache.Reset()`: clears the buffer. -/
def reset (c : PoseCache) : PoseCache := { c with samples := [] }

/-- `pose_cache.Add(timestamp, pose)`: insert, evicting beyond capacity. -/
def add (c : PoseCache) (ts : Int) (p : Vec6) : PoseCache :=
  { c with samples := ((ts, p) :: c.samples).take c.capacity }

/-- `pose_cache.GetVelocity(...)`: finite difference of the two most recent
samples over their time delta; zero when fewer than two samples exist. -/
def getVelocity (c : PoseCache) : Vec6 :=
  match c.samples with
  | (t2, p2) :: (t1, p1) :: _ => vecSmul (1 / ((t2 - t1 : Int) : Rat)) (vecSub p2 p1)
  | _ => vecZero

/-- `pose_cache.GetCovariance(cov)`: `none` (caller's `res == false`) when
the buffer holds fewer than the minimum fill count, otherwise the sample
covariance. -/
def getCovariance (c : PoseCache) : Option Cov :=
  if c.samples.length < c.minCount then none
  else some (sampleCovariance (c.samples.map Prod.snd))

end PoseCache

/-- Modelled from the spec: the source's `velocity_cache` — "a velocity
cache of the same shape tracks distribution of recent velocity outputs
rather than poses" (§4.4).  Same bounded buffer and minimum fill count. -/
structure VelocityCache where
  capacity : Nat
  minCount : Nat
  samples : List Vec6
deriving DecidableEq

namespace VelocityCache

def reset (c : VelocityCache) : VelocityCache := { c with samples := [] }

def add (c : VelocityCache) (v : Vec6) : VelocityCache :=
  { c with samples := (v :: c.samples).take c.capacity }

def getCovariance (c : VelocityCache) : Option Cov :=
  if c.samples.length < c.minCount then none
  else some (sampleCovariance c.samples)

end VelocityCache

/-- An IMU message as the tick consumes it: header stamp plus an opaque
measurement payload (`TocuVSLAMImuMeasurement` conversion is out of
scope). -/
structure ImuMsg where
  ts : Int
  payload : Nat
deriving DecidableEq, Repr

/-- One engine invocation the tick performs, in call order. -/
inductive EngineOp where
  | registerImu (callTs : Int) (m : ImuMsg)
  | trackGpuMem (numImages : Nat)
  | getSlamPose
deriving DecidableEq, Repr

/-- One message UpdatePose publishes, in publish order.  Payloads are kept
only where a claim inspects them (the odometry covariances and twist). -/
inductive PubMsg where
  | frameTransform (inverted : Bool) (kind : Nat)
  | voPoseMsg
  | voPoseCovMsg (cov : Cov)
  | odometryMsg (poseCov : Cov) (twistCov : Cov) (vel : Vec6)
  | voVelocityMarkers (vel : Vec6)
  | slamOdometryMsg
  | voPathMsg (length : Nat)
  | slamPathMsg (length : Nat)
  | gravityMarker
  | statusMsg (voState : Nat)
  | diagnosticsMsg (ok : Bool)

/-- Does the message carry a pose, a transform, an odometry or a path —
the kinds a lost tick must withhold? -/
def PubMsg.isPoseTfOdomPath : PubMsg → Bool
  | .frameTransform _ _ => true
  | .voPoseMsg => true
  | .voPoseCovMsg _ => true
  | .odometryMsg _ _ _ => true
  | .slamOdometryMsg => true
  | .voPathMsg _ => true
  | .slamPathMsg _ => true
  | _ => false

/-- The node parameters UpdatePose reads. -/
structure NodeConfig where
  numCameras : Nat
  imageJitterThresholdMs : Rat
  enableLocalizationNMapping : Bool
  enableImuFusion : Bool
  enableGroundConstraint : Bool
  publishMapToOdomTf : Bool
  invertMapToOdomTf : Bool
  publishOdomToBaseTf : Bool
  invertOdomToBaseTf : Bool
  pathMaxSize : Nat
deriving DecidableEq, Repr

/-- `HasSubscribers(...)` for each publisher the tick may use. -/
structure Subscribers where
  voPose : Bool
  voPoseCov : Bool
  odometry : Bool
  voVelocity : Bool
  slamOdometry : Bool
  voPath : Bool
  slamPath : Bool
  gravity : Bool
  statusPub : Bool
  diagnostics : Bool
deriving DecidableEq, Repr

/-- The engine's behaviour on this tick (the tracking engine is an opaque
external capability): the status `CUVSLAM_TrackGpuMem` returns, whether the
ground-constraint calls succeed, the `CUVSLAM_GetSlamPose` status, whether
`CUVSLAM_GetLastGravity` has a gravity vector, the tracked pose already
converted to ROS conventions (conversions out of scope), the converted VO
covariance and the measured track execution time. -/
structure EngineOracle where
  voStatus : CUVSLAM_Status
  groundOk : Bool
  slamPoseStatus : CUVSLAM_Status
  gravityAvailable : Bool
  odomPoseBaseLink : Vec6
  voCovariance : Cov
  trackTime : Rat

/-- The mutable state UpdatePose touches. -/
structure TickState where
  poseCache : PoseCache
  velocityCache : VelocityCache
  voPath : List Vec6
  slamPath : List Vec6
  trackTimes : List Rat
  lastTrackTs : Int
  locSlot : Option (BFuture (Option CPose))

/-- What one UpdatePose call did: the engine calls in order, the messages
published in order, the state on return, whether the tick ran to the end of
the function (false on an early `return`), whether the inter-frame jitter
warning fired and the timestamp it was computed against. -/
structure TickResult where
  trace : List EngineOp
  pubs : List PubMsg
  st : TickState
  completed : Bool
  jitterWarned : Bool
  jitterRefTs : Int

/-- `latest_ts` (lines 675-683): the maximum image timestamp; the vector is
assumed nonempty. -/
def latestTimestamp (images : List (Nat × Int)) : Int :=
  (images.map Prod.snd).foldl max ((images.map Prod.snd).headD 0)

/-- The common tail of a completed tick (lines 933-992): execution-time
statistics updated (the stopwatch buffer holds 100 entries, line 137), the
status message (`vo_state` 1 on success, else 2) and the diagnostics message
(level OK exactly on success) published to their subscribers, and
`last_track_ts` set to this tick's timestamp. -/
def finishTick (subs : Subscribers) (orc : EngineOracle) (latestTs : Int)
    (trace : List EngineOp) (pubs : List PubMsg) (st : TickState)
    (jw : Bool) (jref : Int) : TickResult :=
  { trace := trace
    pubs := pubs
      ++ (if subs.statusPub then
            [PubMsg.statusMsg (if orc.voStatus = CUVSLAM_Status.success then 1 else 2)] else [])
      ++ (if subs.diagnostics then
            [PubMsg.diagnosticsMsg (orc.voStatus = CUVSLAM_Status.success)] else [])
    st := { st with
            trackTimes := (orc.trackTime :: st.trackTimes).take 100
            lastTrackTs := latestTs }
    completed := true
    jitterWarned := jw
    jitterRefTs := jref }

/-- `VisualSlamNode::VisualSlamImpl::UpdatePose` (lines 662-993).
Control flow, engine calls, publications and state updates of one tracking
tick; image payloads are carried as (stream index, timestamp) pairs. -/
def UpdatePose (cfg : NodeConfig) (subs : Subscribers) (orc : EngineOracle)
    (imuMsgs : List ImuMsg) (images : List (Nat × Int)) (st0 : TickState) : TickResult :=
  -- line 672: poll for a completed localization first
  let st : TickState := { st0 with locSlot := (CheckLocalizationStatus st0.locSlot).1 }
  let latestTs := latestTimestamp images
  -- lines 687-694: jitter warning against last_track_ts
  let jref := st.lastTrackTs
  let jw := decide (((latestTs - st.lastTrackTs : Int) : Rat) / 1000000 > cfg.imageJitterThresholdMs)
    && decide (st.lastTrackTs ≠ -1)
  -- lines 697-708: one CUVSLAM_RegisterImuMeasurement per IMU message, each
  -- called with latest_ts (the image timestamp, not the IMU stamp)
  let regs := imuMsgs.map (fun m => EngineOp.registerImu latestTs m)
  -- lines 710-731: only the first num_cameras stream indices become images
  let numCuvslamImages := (images.filter (fun p => decide (p.1 < cfg.numCameras))).length
  -- lines 740-742: the single CUVSLAM_TrackGpuMem call
  let trace := regs ++ [EngineOp.trackGpuMem numCuvslamImages]
  if orc.voStatus = CUVSLAM_Status.trackingLost then
    -- lines 745-747: reset the pose cache, keep going
    finishTick subs orc latestTs trace [] { st with poseCache := st.poseCache.reset } jw jref
  else if orc.voStatus ≠ CUVSLAM_Status.success then
    -- lines 748-751: unknown tracker error, early return
    { trace := trace, pubs := [], st := st, completed := false,
      jitterWarned := jw, jitterRefTs := jref }
  else
    -- lines 756-931: the success block
    if cfg.enableGroundConstraint && !orc.groundOk then
      -- lines 757-762: ground constraint failure, early return
      { trace := trace, pubs := [], st := st, completed := false,
        jitterWarned := jw, jitterRefTs := jref }
    else if cfg.enableLocalizationNMapping && !decide (orc.slamPoseStatus = CUVSLAM_Status.success) then
      -- lines 775-781: CUVSLAM_GetSlamPose failure, early return
      { trace := trace ++ [EngineOp.getSlamPose], pubs := [], st := st, completed := false,
        jitterWarned := jw, jitterRefTs := jref }
    else
      let trace2 := trace ++ (if cfg.enableLocalizationNMapping then [EngineOp.getSlamPose] else [])
      -- lines 790-810: TF publications
      let tfs := (if cfg.publishMapToOdomTf then
            [PubMsg.frameTransform cfg.invertMapToOdomTf 0] else [])
        ++ (if cfg.publishOdomToBaseTf then
            [PubMsg.frameTransform cfg.invertOdomToBaseTf 1] else [])
      -- lines 812-820: update the caches
      let pc := st.poseCache.add latestTs orc.odomPoseBaseLink
      let vel := pc.getVelocity
      let vc := st.velocityCache.add vel
      -- lines 836-930: subscriber-gated publications
      let voPath1 := if subs.voPath then (orc.odomPoseBaseLink :: st.voPath).take cfg.pathMaxSize
        else st.voPath
      let slamPath1 := if subs.slamPath then (orc.odomPoseBaseLink :: st.slamPath).take cfg.pathMaxSize
        else st.slamPath
      let pubs := tfs
        ++ (if subs.voPose then [PubMsg.voPoseMsg] else [])
        ++ (if subs.voPoseCov then [PubMsg.voPoseCovMsg orc.voCovariance] else [])
        ++ (if subs.odometry then
              [PubMsg.odometryMsg ((pc.getCovariance).getD idCov)
                ((vc.getCovariance).getD idCov) vel] else [])
        ++ (if subs.voVelocity then [PubMsg.voVelocityMarkers pc.getVelocity] else [])
        ++ (if subs.slamOdometry then [PubMsg.slamOdometryMsg] else [])
        ++ (if subs.voPath then [PubMsg.voPathMsg voPath1.length] else [])
        ++ (if subs.slamPath then [PubMsg.slamPathMsg slamPath1.length] else [])
        ++ (if subs.gravity && cfg.enableImuFusion && orc.gravityAvailable then
              [PubMsg.gravityMarker] else [])
      finishTick subs orc latestTs trace2 pubs
        { st with poseCache := pc, velocityCache := vc,
                  voPath := voPath1, slamPath := slamPath1 } jw jref

/-- Is this engine call a `CUVSLAM_RegisterImuMeasurement`? -/
def EngineOp.isRegisterImu : EngineOp → Bool
  | .registerImu _ _ => true
  | _ => false

/-- Is this engine call the `CUVSLAM_TrackGpuMem` invocation? -/
def EngineOp.isTrack : EngineOp → Bool
  | .trackGpuMem _ => true
  | _ => false

/-- The pose cache as the success block leaves it: the tick's pose appended
at the tick timestamp (line 813). -/
def tickPoseCacheAfter (orc : EngineOracle) (images : List (Nat × Int))
    (st0 : TickState) : PoseCache :=
  st0.poseCache.add (latestTimestamp images) orc.odomPoseBaseLink

/-- The velocity cache as the success block leaves it: the freshly derived
velocity appended (lines 815-820). -/
def tickVelCacheAfter (orc : EngineOracle) (images : List (Nat × Int))
    (st0 : TickState) : VelocityCache :=
  st0.velocityCache.add (tickPoseCacheAfter orc images st0).getVelocity

/-- A camera-info message payload (opaque). -/
structure CameraInfoMsg where
  payload : Nat
deriving DecidableEq, Repr

/-- The parameters the sensor callbacks and the readiness check read. -/
structure PreInitConfig where
  numCameras : Nat
  enableImuFusion : Bool
deriving DecidableEq, Repr

/-- The sensor-side state of the impl: whether `cuvslam_handle` is non-null,
`initial_imu_message`, `initial_camera_info_messages` (an index-keyed map,
held as an association list with distinct keys), the frames forwarded to the
synchronizer (`sync.AddMessage`), and the IMU messages handed to the
sequencer (`sequencer.CallbackStream1`). -/
structure SensorState where
  cuvslamHandle : Bool
  initialImu : Option ImuMsg
  cameraInfos : List (Nat × CameraInfoMsg)
  syncFrames : List (Nat × Int)
  seqImu : List ImuMsg
deriving DecidableEq, Repr

/-- `VisualSlamImpl::IsInitialized` (lines 159-162): the tracker handle is
non-null. -/
def IsInitialized (s : SensorState) : Bool := s.cuvslamHandle

/-- `initial_camera_info_messages[index] = msg` on the `unordered_map`:
replace the entry for `index` when present, insert it otherwise. -/
def insertCameraInfo (m : List (Nat × CameraInfoMsg)) (k : Nat) (v : CameraInfoMsg) :
    List (Nat × CameraInfoMsg) :=
  if m.any (fun p => p.1 == k) then
    m.map (fun p => if p.1 == k then (k, v) else p)
  else
    (k, v) :: m

/-- `VisualSlamImpl::IsReadyForInitialization` (lines 164-175): false when
IMU fusion is enabled and no IMU message has been stored; otherwise true
exactly when one camera-info message per configured camera is stored. -/
def IsReadyForInitialization (cfg : PreInitConfig) (s : SensorState) : Bool :=
  (!cfg.enableImuFusion || s.initialImu.isSome)
    && (s.cameraInfos.length == cfg.numCameras)

/-- `VisualSlamImpl::CallbackImu` (lines 622-631): after initialization the
message goes to the sequencer's stream 1; before it, it overwrites
`initial_imu_message` — no buffer, only the most recent message is kept. -/
def CallbackImu (s : SensorState) (m : ImuMsg) : SensorState :=
  if IsInitialized s then { s with seqImu := s.seqImu ++ [m] }
  else { s with initialImu := some m }

/-- `VisualSlamImpl::CallbackImage` (lines 633-642): after initialization
the frame goes to the synchronizer; before it, the callback does nothing —
the frame is discarded. -/
def CallbackImage (s : SensorState) (idx : Nat) (ts : Int) : SensorState :=
  if IsInitialized s then { s with syncFrames := s.syncFrames ++ [(idx, ts)] }
  else s

/-- Result of one camera-info callback: the new state and whether
`Initialize()` was attempted during the callback. -/
structure CameraInfoStepOut where
  state : SensorState
  attemptedInit : Bool
deriving DecidableEq, Repr

/-- `VisualSlamImpl::CallbackCameraInfo` (lines 644-654): after
initialization the callback does nothing; before it, the message is stored
under its index and `Initialize()` runs exactly when
`IsReadyForInitialization()` then holds.  `Initialize()` itself (lines
177-352) creates the tracker; whether it succeeds (sets the handle) depends
on the engine, abstracted by `initSucceeds`. -/
def CallbackCameraInfo (cfg : PreInitConfig) (initSucceeds : Bool)
    (s : SensorState) (idx : Nat) (m : CameraInfoMsg) : CameraInfoStepOut :=
  if IsInitialized s then { state := s, attemptedInit := false }
  else
    let s1 := { s with cameraInfos := insertCameraInfo s.cameraInfos idx m }
    if IsReadyForInitialization cfg s1 then
      { state := { s1 with cuvslamHandle := initSucceeds }, attemptedInit := true }
    else
      { state := s1, attemptedInit := false }

/-- The empty uninitialized sensor state (fresh impl object). -/
def emptySensorState : SensorState :=
  { cuvslamHandle := false, initialImu := none, cameraInfos := [],
    syncFrames := [], seqImu := [] }

/-- One incoming sensor event. -/
inductive SensorEvent where
  | imu (m : ImuMsg)
  | image (idx : Nat) (ts : Int)
  | cameraInfo (idx : Nat) (m : CameraInfoMsg)
deriving DecidableEq, Repr

/-- Dispatch of one incoming message to its callback, recording whether the
step attempted `Initialize()` (only a camera-info callback can). -/
def sensorStep (cfg : PreInitConfig) (initSucceeds : Bool)
    (s : SensorState) (e : SensorEvent) : CameraInfoStepOut :=
  match e with
  | .imu m => { state := CallbackImu s m, attemptedInit := false }
  | .image idx ts => { state := CallbackImage s idx ts, attemptedInit := false }
  | .cameraInfo idx m => CallbackCameraInfo cfg initSucceeds s idx m

/-! ## Theorems -/

/-- Auxiliary: the jitter reference timestamp of any tick is the
`last_track_ts` stored in the input state. -/
theorem updatePose_jitterRefTs (cfg : NodeConfig) (subs : Subscribers)
    (orc : EngineOracle) (imuMsgs : List ImuMsg) (images : List (Nat × Int))
    (st0 : TickState) :
    (UpdatePose cfg subs orc imuMsgs images st0).jitterRefTs = st0.lastTrackTs := by
  unfold UpdatePose
  split
  · simp [finishTick]
  · split
    · rfl
    · split
      · rfl
      · split
        · rfl
        · simp [finishTick]

/-- Auxiliary: every tick leaves the localization slot exactly as the single
`CheckLocalizationStatus` poll at its start leaves it. -/
theorem updatePose_locSlot (cfg : NodeConfig) (subs : Subscribers)
    (orc : EngineOracle) (imuMsgs : List ImuMsg) (images : List (Nat × Int))
    (st0 : TickState) :
    (UpdatePose cfg subs orc imuMsgs images st0).st.locSlot =
      (CheckLocalizationStatus st0.locSlot).1 := by
  unfold UpdatePose
  split
  · simp [finishTick]
  · split
    · rfl
    · split
      · rfl
      · split
        · rfl
        · simp [finishTick]

/-- C1 counterexample: with localization-and-mapping enabled and a map
folder that is a directory holding a `.mdb` regular file, a synchronous
`CUVSLAM_GENERIC_ERROR` from `CUVSLAM_LocalizeInExistDb` leaves the
context's promise pending: the future returned by
`CuvslamInternalLocalizeInMapAsync` is NOT resolved at the moment of
return — the code relies on the engine's completion callback instead. -/
theorem C1_localize_sync_failure_counterexample :
    CUVSLAM_Status.genericError ≠ CUVSLAM_Status.success ∧
    (CuvslamInternalLocalizeInMapAsync true
      { isDirectory := true, entries := [{ isRegularFile := true, extension := ".mdb" }] }
      0 CUVSLAM_Status.genericError).engineCalled = true ∧
    ¬ ((CuvslamInternalLocalizeInMapAsync true
      { isDirectory := true, entries := [{ isRegularFile := true, extension := ".mdb" }] }
      0 CUVSLAM_Status.genericError).ctx.promise.isSome = true) := by
  refine ⟨by decide, by decide, by decide⟩

/-- C1 (amended): on a synchronous engine failure, `SaveMap` returns the
engine's status immediately without blocking on its future; the localize
path calls the engine but does not resolve its promise on a synchronous
failure — the returned future is still pending, left for the engine's
completion callback. -/
theorem C1_sync_failure_behaviour (callRes asyncRes : CUVSLAM_Status)
    (folder : MapFolder) (hint : CPose)
    (hne : callRes ≠ CUVSLAM_Status.success)
    (hdir : folder.isDirectory = true) (hmdb : hasLmdbFiles folder = true) :
    SaveMap true callRes asyncRes =
      { result := callRes, engineCalled := true, waitedOnFuture := false } ∧
    (CuvslamInternalLocalizeInMapAsync true folder hint callRes).engineCalled = true ∧
    (CuvslamInternalLocalizeInMapAsync true folder hint callRes).ctx =
      { promise := none, poseStorage := hint } := by
  refine ⟨?_, ?_, ?_⟩
  · simp [SaveMap, hne]
  · simp [CuvslamInternalLocalizeInMapAsync, hdir, hmdb]
  · simp [CuvslamInternalLocalizeInMapAsync, hdir, hmdb, freshLocalizeCtx]

/-- C1 witness: the amended behaviour at a concrete failing status and a
concrete well-formed map folder. -/
theorem C1_sync_failure_witness :
    SaveMap true CUVSLAM_Status.genericError CUVSLAM_Status.success =
      { result := CUVSLAM_Status.genericError, engineCalled := true,
        waitedOnFuture := false } ∧
    (CuvslamInternalLocalizeInMapAsync true
      { isDirectory := true, entries := [{ isRegularFile := true, extension := ".mdb" }] }
      7 CUVSLAM_Status.genericError).engineCalled = true ∧
    (CuvslamInternalLocalizeInMapAsync true
      { isDirectory := true, entries := [{ isRegularFile := true, extension := ".mdb" }] }
      7 CUVSLAM_Status.genericError).ctx = { promise := none, poseStorage := 7 } :=
  C1_sync_failure_behaviour CUVSLAM_Status.genericError CUVSLAM_Status.success
    { isDirectory := true, entries := [{ isRegularFile := true, extension := ".mdb" }] }
    7 (by decide) (by decide) (by decide)

/-- C2 counterexample: a `SaveMap` call blocked on its stack-local future
before destruction is not unblocked by `Exit` — after `Exit` the in-flight
save context's promise is still pending, so the claim that every pending
command future (the one inside `SaveMap` included) is force-resolved on
shutdown is false. -/
theorem C2_save_future_counterexample :
    (ExitCommands { localizeCtx := freshLocalizeCtx,
                    saveCtxInFlight := some { promise := none } }).saveCtxInFlight =
      some { promise := none } := by
  decide

/-- C2 (amended): on shutdown `Exit` force-resolves the localize command's
future, if still pending, with the canonical failure
`CUVSLAM_CAN_NOT_LOCALIZE`; resolving an already-resolved future is a
no-op, not an error; a pending `SaveMap` future (stack-local to the blocked
caller) is not resolved by `Exit`. -/
theorem C2_exit_resolution (s : ImplState) :
    ((ExitCommands s).localizeCtx.promise).isSome = true ∧
    (s.localizeCtx.promise = none →
      (ExitCommands s).localizeCtx.promise =
        some { status := CUVSLAM_Status.canNotLocalize, poseInDb := none }) ∧
    (∀ r, s.localizeCtx.promise = some r →
      (ExitCommands s).localizeCtx.promise = some r) ∧
    (ExitCommands s).saveCtxInFlight = s.saveCtxInFlight := by
  refine ⟨?_, ?_, ?_, rfl⟩
  · cases h : s.localizeCtx.promise <;> simp [ExitCommands, trySetValue, h]
  · intro h
    simp [ExitCommands, trySetValue, h]
  · intro r h
    simp [ExitCommands, trySetValue, h]

/-- C3: every unmet precondition fails fast without contacting the engine:
`SaveMap` returns `CUVSLAM_SLAM_IS_NOT_INITIALIZED` when
localization-and-mapping is disabled, without calling `CUVSLAM_SaveToSlamDb`;
`CuvslamInternalLocalizeInMapAsync` returns an already-resolved failure
future without calling `CUVSLAM_LocalizeInExistDb` when the feature is
disabled, when the map folder is not a directory, or when it holds no
`.mdb` database files. -/
theorem C3_precondition_fail_fast (callRes asyncRes : CUVSLAM_Status)
    (folder : MapFolder) (hint : CPose) (cr : CUVSLAM_Status) :
    SaveMap false callRes asyncRes =
      { result := CUVSLAM_Status.slamNotInitialized, engineCalled := false,
        waitedOnFuture := false } ∧
    CuvslamInternalLocalizeInMapAsync false folder hint cr =
      { ctx := { promise := some { status := CUVSLAM_Status.slamNotInitialized,
                                   poseInDb := none },
                 poseStorage := 0 },
        engineCalled := false } ∧
    (folder.isDirectory = false →
      CuvslamInternalLocalizeInMapAsync true folder hint cr =
        { ctx := { promise := some { status := CUVSLAM_Status.genericError,
                                     poseInDb := none },
                   poseStorage := 0 },
          engineCalled := false }) ∧
    (hasLmdbFiles folder = false →
      CuvslamInternalLocalizeInMapAsync true folder hint cr =
        { ctx := { promise := some { status := CUVSLAM_Status.genericError,
                                     poseInDb := none },
                   poseStorage := 0 },
          engineCalled := false }) := by
  refine ⟨?_, ?_, ?_, ?_⟩
  · simp [SaveMap]
  · simp [CuvslamInternalLocalizeInMapAsync, LocalizeInExistDbResponse, freshLocalizeCtx]
  · intro h
    simp [CuvslamInternalLocalizeInMapAsync, LocalizeInExistDbResponse, freshLocalizeCtx, h]
  · intro h
    by_cases hd : folder.isDirectory
      <;> simp [CuvslamInternalLocalizeInMapAsync, LocalizeInExistDbResponse,
            freshLocalizeCtx, h, hd]

/-- C4: every `CuvslamInternalLocalizeInMapAsync` call unconditionally
overwrites the single shared command context before issuing the request:
the slot after the call does not depend on the prior slot (a pending prior
command is simply superseded, its slot replaced, so a second `localizeInMap`
is accepted without waiting), the save context is untouched, and on the
engine path the fresh slot is pending. -/
theorem C4_localize_slot_overwrite (s : ImplState) (enable : Bool)
    (folder : MapFolder) (hint : CPose) (cr : CUVSLAM_Status) :
    (localizeInMapAsyncStep s enable folder hint cr).1.localizeCtx =
      (CuvslamInternalLocalizeInMapAsync enable folder hint cr).ctx ∧
    (localizeInMapAsyncStep s enable folder hint cr).2 =
      CuvslamInternalLocalizeInMapAsync enable folder hint cr ∧
    (localizeInMapAsyncStep s enable folder hint cr).1.saveCtxInFlight =
      s.saveCtxInFlight ∧
    (enable = true → folder.isDirectory = true → hasLmdbFiles folder = true →
      (localizeInMapAsyncStep s enable folder hint cr).1.localizeCtx.promise = none) := by
  refine ⟨rfl, rfl, rfl, ?_⟩
  intro he hd hm
  simp [localizeInMapAsyncStep, CuvslamInternalLocalizeInMapAsync, he, hd, hm,
    freshLocalizeCtx]

/-- C5: the per-tick localization status check is a non-blocking poll: it is
a total function of the slot (it returns on every state, a pending future
included, since `wait_for` is given a zero duration); it consumes the result
and clears the slot exactly when a future is stored and ready, logging the
outcome; otherwise the slot is left unchanged and nothing is logged; and
every tracking tick applies exactly this poll once to the stored slot. -/
theorem C5_localization_poll (slot : Option (BFuture (Option CPose))) :
    CheckLocalizationStatus none = (none, none) ∧
    (∀ f : BFuture (Option CPose), f.ready = false →
      CheckLocalizationStatus (some f) = (some f, none)) ∧
    (∀ f : BFuture (Option CPose), f.ready = true →
      CheckLocalizationStatus (some f) =
        (none, some (match f.value with
          | some _ => LocLog.completedOk
          | none => LocLog.failed))) ∧
    (((CheckLocalizationStatus slot).2.isSome = true) ↔
      ∃ f, slot = some f ∧ f.ready = true) ∧
    (∀ (cfg : NodeConfig) (subs : Subscribers) (orc : EngineOracle)
      (imuMsgs : List ImuMsg) (images : List (Nat × Int)) (st0 : TickState),
      st0.locSlot = slot →
      (UpdatePose cfg subs orc imuMsgs images st0).st.locSlot =
        (CheckLocalizationStatus slot).1) := by
  refine ⟨rfl, ?_, ?_, ?_, ?_⟩
  · intro f hf
    simp [CheckLocalizationStatus, hf]
  · intro f hf
    simp [CheckLocalizationStatus, hf]
  · cases slot with
    | none => simp [CheckLocalizationStatus]
    | some f =>
      cases hf : f.ready <;> simp [CheckLocalizationStatus, hf]
  · intro cfg subs orc imuMsgs images st0 hslot
    rw [← hslot]
    exact updatePose_locSlot cfg subs orc imuMsgs images st0

/-- C9 counterexample: one camera, IMU fusion enabled; the camera-info
message arrives first, the first IMU message second.  After the IMU arrival
the readiness condition (one camera-info per camera and an IMU message)
holds, yet no step has attempted initialization — the attempt only happens
on a later camera-info arrival, so "attempted exactly when the condition
has arrived" fails. -/
theorem C9_imu_last_counterexample :
    IsReadyForInitialization { numCameras := 1, enableImuFusion := true }
      (sensorStep { numCameras := 1, enableImuFusion := true } true
        (sensorStep { numCameras := 1, enableImuFusion := true } true
          { cuvslamHandle := false, initialImu := none, cameraInfos := [],
            syncFrames := [], seqImu := [] }
          (SensorEvent.cameraInfo 0 { payload := 0 })).state
        (SensorEvent.imu { ts := 5, payload := 0 })).state = true ∧
    (sensorStep { numCameras := 1, enableImuFusion := true } true
        (sensorStep { numCameras := 1, enableImuFusion := true } true
          { cuvslamHandle := false, initialImu := none, cameraInfos := [],
            syncFrames := [], seqImu := [] }
          (SensorEvent.cameraInfo 0 { payload := 0 })).state
        (SensorEvent.imu { ts := 5, payload := 0 })).attemptedInit = false ∧
    (sensorStep { numCameras := 1, enableImuFusion := true } true
        { cuvslamHandle := false, initialImu := none, cameraInfos := [],
          syncFrames := [], seqImu := [] }
        (SensorEvent.cameraInfo 0 { payload := 0 })).attemptedInit = false := by
  decide

/-- C9 (amended): before the engine is initialized, every camera frame is
discarded without being buffered or forwarded to the synchronizer, and IMU
messages are not buffered — only the most recent one is retained as the
initialization sample; initialization is attempted automatically on a
camera-info arrival exactly when, after recording it, one camera-info per
configured camera is stored and (if IMU fusion is enabled) an IMU message
has arrived — an IMU arrival that completes the condition does not itself
trigger an attempt. -/
theorem C9_preinit_behaviour (cfg : PreInitConfig) (initSucceeds : Bool)
    (s : SensorState) (h : IsInitialized s = false) :
    (∀ idx ts, CallbackImage s idx ts = s) ∧
    (∀ m, CallbackImu s m = { s with initialImu := some m }) ∧
    (∀ idx m, (CallbackCameraInfo cfg initSucceeds s idx m).attemptedInit =
      IsReadyForInitialization cfg
        { s with cameraInfos := insertCameraInfo s.cameraInfos idx m }) ∧
    (∀ idx m, (CallbackCameraInfo cfg initSucceeds s idx m).state.cameraInfos =
      insertCameraInfo s.cameraInfos idx m) ∧
    (∀ e, (sensorStep cfg initSucceeds s e).attemptedInit = true →
      ∃ idx m, e = SensorEvent.cameraInfo idx m) := by
  refine ⟨?_, ?_, ?_, ?_, ?_⟩
  · intro idx ts
    simp [CallbackImage, h]
  · intro m
    simp [CallbackImu, h]
  · intro idx m
    simp only [CallbackCameraInfo, h, Bool.false_eq_true, if_false]
    split <;> simp_all
  · intro idx m
    simp only [CallbackCameraInfo, h, Bool.false_eq_true, if_false]
    split <;> rfl
  · intro e he
    cases e with
    | imu m => simp [sensorStep] at he
    | image idx ts => simp [sensorStep] at he
    | cameraInfo idx m => exact ⟨idx, m, rfl⟩

/-- C9 witness: the amended behaviour at a concrete uninitialized state. -/
theorem C9_preinit_witness :
    IsInitialized emptySensorState = false ∧
    ((∀ idx ts, CallbackImage emptySensorState idx ts = emptySensorState) ∧
     (∀ m, CallbackImu emptySensorState m =
        { emptySensorState with initialImu := some m }) ∧
     (∀ idx m, (CallbackCameraInfo { numCameras := 1, enableImuFusion := true } true
        emptySensorState idx m).attemptedInit =
        IsReadyForInitialization { numCameras := 1, enableImuFusion := true }
          { emptySensorState with
            cameraInfos := insertCameraInfo emptySensorState.cameraInfos idx m }) ∧
     (∀ idx m, (CallbackCameraInfo { numCameras := 1, enableImuFusion := true } true
        emptySensorState idx m).state.cameraInfos =
        insertCameraInfo emptySensorState.cameraInfos idx m) ∧
     (∀ e, (sensorStep { numCameras := 1, enableImuFusion := true } true
        emptySensorState e).attemptedInit = true →
        ∃ idx m, e = SensorEvent.cameraInfo idx m)) :=
  ⟨by decide, C9_preinit_behaviour { numCameras := 1, enableImuFusion := true } true
    emptySensorState (by decide)⟩

/-- Auxiliary: `countP` of the register calls produced by the IMU loop. -/
theorem countP_registerImu_map (ts : Int) (l : List ImuMsg) :
    (l.map (fun m => EngineOp.registerImu ts m)).countP EngineOp.isRegisterImu
      = l.length := by
  induction l with
  | nil => rfl
  | cons a t ih => simp [List.countP_cons, EngineOp.isRegisterImu, ih]

/-- Auxiliary: the register calls contain no `trackGpuMem`. -/
theorem countP_track_map (ts : Int) (l : List ImuMsg) :
    (l.map (fun m => EngineOp.registerImu ts m)).countP EngineOp.isTrack = 0 := by
  induction l with
  | nil => rfl
  | cons a t ih => simp [List.countP_cons, EngineOp.isTrack, ih]

/-- C6: on a `CUVSLAM_TRACKING_LOST` tick the pose cache is reset, no pose,
transform, odometry or path message is published (only the status message,
`vo_state = 2`, and the WARN diagnostics go out, each to its subscribers),
and the tick still runs to completion: execution-time statistics are
updated and `last_track_ts` advances to this tick's timestamp. -/
theorem C6_tracking_lost (cfg : NodeConfig) (subs : Subscribers)
    (orc : EngineOracle) (imuMsgs : List ImuMsg) (images : List (Nat × Int))
    (st0 : TickState) (h : orc.voStatus = CUVSLAM_Status.trackingLost) :
    (UpdatePose cfg subs orc imuMsgs images st0).st.poseCache.samples = [] ∧
    (UpdatePose cfg subs orc imuMsgs images st0).pubs =
      (if subs.statusPub then [PubMsg.statusMsg 2] else [])
        ++ (if subs.diagnostics then [PubMsg.diagnosticsMsg false] else []) ∧
    (∀ m ∈ (UpdatePose cfg subs orc imuMsgs images st0).pubs,
      m.isPoseTfOdomPath = false) ∧
    (UpdatePose cfg subs orc imuMsgs images st0).completed = true ∧
    (UpdatePose cfg subs orc imuMsgs images st0).st.trackTimes =
      (orc.trackTime :: st0.trackTimes).take 100 ∧
    (UpdatePose cfg subs orc imuMsgs images st0).st.lastTrackTs =
      latestTimestamp images := by
  refine ⟨?_, ?_, ?_, ?_, ?_, ?_⟩ <;>
    simp [UpdatePose, finishTick, h, PoseCache.reset]
  intro m hm
  rcases hm with hm | hm
  · rcases hm with ⟨-, hm⟩
    simp [hm, PubMsg.isPoseTfOdomPath]
  · rcases hm with ⟨-, hm⟩
    simp [hm, PubMsg.isPoseTfOdomPath]

/-- C6 witness: a concrete lost tick with both status subscribers on. -/
theorem C6_tracking_lost_witness :
    (UpdatePose ⟨1, 100, false, false, false, false, false, false, false, 10⟩
      ⟨false, false, false, false, false, false, false, false, true, true⟩
      ⟨CUVSLAM_Status.trackingLost, true, CUVSLAM_Status.success, false,
        vecZero, idCov, 0⟩
      [] [(0, 5)]
      ⟨⟨10, 3, [(1, vecZero)]⟩, ⟨10, 3, []⟩, [], [], [], -1, none⟩).st.poseCache.samples
        = [] ∧
    (UpdatePose ⟨1, 100, false, false, false, false, false, false, false, 10⟩
      ⟨false, false, false, false, false, false, false, false, true, true⟩
      ⟨CUVSLAM_Status.trackingLost, true, CUVSLAM_Status.success, false,
        vecZero, idCov, 0⟩
      [] [(0, 5)]
      ⟨⟨10, 3, [(1, vecZero)]⟩, ⟨10, 3, []⟩, [], [], [], -1, none⟩).pubs =
      [PubMsg.statusMsg 2, PubMsg.diagnosticsMsg false] ∧
    (UpdatePose ⟨1, 100, false, false, false, false, false, false, false, 10⟩
      ⟨false, false, false, false, false, false, false, false, true, true⟩
      ⟨CUVSLAM_Status.trackingLost, true, CUVSLAM_Status.success, false,
        vecZero, idCov, 0⟩
      [] [(0, 5)]
      ⟨⟨10, 3, [(1, vecZero)]⟩, ⟨10, 3, []⟩, [], [], [], -1, none⟩).completed = true := by
  have h := C6_tracking_lost ⟨1, 100, false, false, false, false, false, false, false, 10⟩
    ⟨false, false, false, false, false, false, false, false, true, true⟩
    ⟨CUVSLAM_Status.trackingLost, true, CUVSLAM_Status.success, false,
      vecZero, idCov, 0⟩
    [] [(0, 5)]
    ⟨⟨10, 3, [(1, vecZero)]⟩, ⟨10, 3, []⟩, [], [], [], -1, none⟩ rfl
  exact ⟨h.1, h.2.1, h.2.2.2.1⟩

/-- C7: within every tick the engine trace is the per-sample
`CUVSLAM_RegisterImuMeasurement` calls — one per inertial message of the
fused batch — followed by the single `CUVSLAM_TrackGpuMem` call, followed
at most by a `CUVSLAM_GetSlamPose`; so every register call precedes the
track call, their count equals the batch's sample count, and the track call
happens exactly once. -/
theorem C7_imu_before_track (cfg : NodeConfig) (subs : Subscribers)
    (orc : EngineOracle) (imuMsgs : List ImuMsg) (images : List (Nat × Int))
    (st0 : TickState) :
    ∃ tail,
      (UpdatePose cfg subs orc imuMsgs images st0).trace =
        imuMsgs.map (fun m => EngineOp.registerImu (latestTimestamp images) m)
          ++ EngineOp.trackGpuMem
              ((images.filter (fun p => decide (p.1 < cfg.numCameras))).length) :: tail ∧
      (tail = [] ∨ tail = [EngineOp.getSlamPose]) ∧
      (UpdatePose cfg subs orc imuMsgs images st0).trace.countP EngineOp.isRegisterImu
        = imuMsgs.length ∧
      (UpdatePose cfg subs orc imuMsgs images st0).trace.countP EngineOp.isTrack = 1 := by
  have hstruct : ∃ tail,
      (UpdatePose cfg subs orc imuMsgs images st0).trace =
        imuMsgs.map (fun m => EngineOp.registerImu (latestTimestamp images) m)
          ++ EngineOp.trackGpuMem
              ((images.filter (fun p => decide (p.1 < cfg.numCameras))).length) :: tail ∧
      (tail = [] ∨ tail = [EngineOp.getSlamPose]) := by
    unfold UpdatePose
    split
    · exact ⟨[], by simp [finishTick], Or.inl rfl⟩
    · split
      · exact ⟨[], by simp, Or.inl rfl⟩
      · split
        · exact ⟨[], by simp, Or.inl rfl⟩
        · split
          · exact ⟨[EngineOp.getSlamPose], by simp, Or.inr rfl⟩
          · refine ⟨if cfg.enableLocalizationNMapping then [EngineOp.getSlamPose] else [],
              by simp [finishTick], ?_⟩
            cases cfg.enableLocalizationNMapping <;> simp
  obtain ⟨tail, ht, hd⟩ := hstruct
  refine ⟨tail, ht, hd, ?_, ?_⟩
  · rw [ht]
    rcases hd with hd | hd <;>
      simp [hd, List.countP_append, List.countP_cons, countP_registerImu_map,
        EngineOp.isRegisterImu]
  · rw [ht]
    rcases hd with hd | hd <;>
      simp [hd, List.countP_append, List.countP_cons, countP_track_map,
        EngineOp.isTrack]

/-- C8: in a successful tick with an odometry subscriber, the published
odometry message carries, for the pose and for the twist, the identity 6x6
matrix whenever the corresponding cache reports its covariance unavailable
— which happens exactly when that cache's buffer holds fewer than its
minimum fill count — and the cache's computed covariance unchanged when it
reports valid. -/
theorem C8_covariance_default (cfg : NodeConfig) (subs : Subscribers)
    (orc : EngineOracle) (imuMsgs : List ImuMsg) (images : List (Nat × Int))
    (st0 : TickState)
    (hs : orc.voStatus = CUVSLAM_Status.success)
    (hg : cfg.enableGroundConstraint = false ∨ orc.groundOk = true)
    (hsp : cfg.enableLocalizationNMapping = false ∨
      orc.slamPoseStatus = CUVSLAM_Status.success)
    (ho : subs.odometry = true) :
    PubMsg.odometryMsg
        ((tickPoseCacheAfter orc images st0).getCovariance.getD idCov)
        ((tickVelCacheAfter orc images st0).getCovariance.getD idCov)
        (tickPoseCacheAfter orc images st0).getVelocity
      ∈ (UpdatePose cfg subs orc imuMsgs images st0).pubs ∧
    ((tickPoseCacheAfter orc images st0).getCovariance = none ↔
      (tickPoseCacheAfter orc images st0).samples.length <
        (tickPoseCacheAfter orc images st0).minCount) ∧
    ((tickPoseCacheAfter orc images st0).getCovariance = none →
      (tickPoseCacheAfter orc images st0).getCovariance.getD idCov = idCov) ∧
    (∀ c, (tickPoseCacheAfter orc images st0).getCovariance = some c →
      (tickPoseCacheAfter orc images st0).getCovariance.getD idCov = c) ∧
    ((tickVelCacheAfter orc images st0).getCovariance = none ↔
      (tickVelCacheAfter orc images st0).samples.length <
        (tickVelCacheAfter orc images st0).minCount) ∧
    ((tickVelCacheAfter orc images st0).getCovariance = none →
      (tickVelCacheAfter orc images st0).getCovariance.getD idCov = idCov) ∧
    (∀ c, (tickVelCacheAfter orc images st0).getCovariance = some c →
      (tickVelCacheAfter orc images st0).getCovariance.getD idCov = c) := by
  refine ⟨?_, ?_, ?_, ?_, ?_, ?_, ?_⟩
  · rcases hg with hg | hg <;> rcases hsp with hsp | hsp <;>
      simp [UpdatePose, finishTick, tickPoseCacheAfter, tickVelCacheAfter,
        hs, hg, hsp, ho]
  · simp only [tickPoseCacheAfter, PoseCache.getCovariance]
    split <;> simp_all
  · intro hn
    simp [hn]
  · intro c hc
    simp [hc]
  · simp only [tickVelCacheAfter, VelocityCache.getCovariance]
    split <;> simp_all
  · intro hn
    simp [hn]
  · intro c hc
    simp [hc]

/-- C8 witness: a concrete successful tick whose caches are below their
minimum fill count, so the identity covariance is published twice. -/
theorem C8_covariance_default_witness :
    PubMsg.odometryMsg idCov idCov vecZero
      ∈ (UpdatePose ⟨1, 100, false, false, false, false, false, false, false, 10⟩
          ⟨false, false, true, false, false, false, false, false, false, false⟩
          ⟨CUVSLAM_Status.success, true, CUVSLAM_Status.success, false,
            vecZero, idCov, 0⟩
          [] [(0, 5)]
          ⟨⟨10, 3, []⟩, ⟨10, 3, []⟩, [], [], [], -1, none⟩).pubs :=
  (C8_covariance_default ⟨1, 100, false, false, false, false, false, false, false, 10⟩
    ⟨false, false, true, false, false, false, false, false, false, false⟩
    ⟨CUVSLAM_Status.success, true, CUVSLAM_Status.success, false,
      vecZero, idCov, 0⟩
    [] [(0, 5)]
    ⟨⟨10, 3, []⟩, ⟨10, 3, []⟩, [], [], [], -1, none⟩
    rfl (Or.inl rfl) (Or.inl rfl) rfl).1

/-- C10: when the engine reports a status that is neither success nor
tracking-lost, the tick returns early: nothing at all is published (no
status, no diagnostics), the pose cache is not reset (it is exactly the
input cache), the execution-time statistics are untouched and
`last_track_ts` keeps the value of the last completed tick — so any later
tick computes its inter-frame jitter against that older timestamp. -/
theorem C10_unknown_error_early_return (cfg : NodeConfig) (subs : Subscribers)
    (orc : EngineOracle) (imuMsgs : List ImuMsg) (images : List (Nat × Int))
    (st0 : TickState)
    (h1 : orc.voStatus ≠ CUVSLAM_Status.success)
    (h2 : orc.voStatus ≠ CUVSLAM_Status.trackingLost) :
    (UpdatePose cfg subs orc imuMsgs images st0).completed = false ∧
    (UpdatePose cfg subs orc imuMsgs images st0).pubs = [] ∧
    (UpdatePose cfg subs orc imuMsgs images st0).st.poseCache = st0.poseCache ∧
    (UpdatePose cfg subs orc imuMsgs images st0).st.trackTimes = st0.trackTimes ∧
    (UpdatePose cfg subs orc imuMsgs images st0).st.lastTrackTs = st0.lastTrackTs ∧
    (UpdatePose cfg subs orc imuMsgs images st0).jitterRefTs = st0.lastTrackTs ∧
    (∀ (cfg2 : NodeConfig) (subs2 : Subscribers) (orc2 : EngineOracle)
      (imu2 : List ImuMsg) (imgs2 : List (Nat × Int)),
      (UpdatePose cfg2 subs2 orc2 imu2 imgs2
        (UpdatePose cfg subs orc imuMsgs images st0).st).jitterRefTs
        = st0.lastTrackTs) := by
  have hmain : (UpdatePose cfg subs orc imuMsgs images st0).completed = false ∧
      (UpdatePose cfg subs orc imuMsgs images st0).pubs = [] ∧
      (UpdatePose cfg subs orc imuMsgs images st0).st.poseCache = st0.poseCache ∧
      (UpdatePose cfg subs orc imuMsgs images st0).st.trackTimes = st0.trackTimes ∧
      (UpdatePose cfg subs orc imuMsgs images st0).st.lastTrackTs = st0.lastTrackTs ∧
      (UpdatePose cfg subs orc imuMsgs images st0).jitterRefTs = st0.lastTrackTs := by
    refine ⟨?_, ?_, ?_, ?_, ?_, ?_⟩ <;> simp [UpdatePose, h1, h2]
  refine ⟨hmain.1, hmain.2.1, hmain.2.2.1, hmain.2.2.2.1, hmain.2.2.2.2.1,
    hmain.2.2.2.2.2, ?_⟩
  intro cfg2 subs2 orc2 imu2 imgs2
  rw [updatePose_jitterRefTs]
  exact hmain.2.2.2.2.1

/-- C10 witness: a concrete unknown tracker error. -/
theorem C10_unknown_error_witness :
    (UpdatePose ⟨1, 100, false, false, false, false, false, false, false, 10⟩
      ⟨true, true, true, true, true, true, true, true, true, true⟩
      ⟨CUVSLAM_Status.other 42, true, CUVSLAM_Status.success, false,
        vecZero, idCov, 0⟩
      [] [(0, 5)]
      ⟨⟨10, 3, [(1, vecZero)]⟩, ⟨10, 3, []⟩, [], [], [], 99, none⟩).completed = false ∧
    (UpdatePose ⟨1, 100, false, false, false, false, false, false, false, 10⟩
      ⟨true, true, true, true, true, true, true, true, true, true⟩
      ⟨CUVSLAM_Status.other 42, true, CUVSLAM_Status.success, false,
        vecZero, idCov, 0⟩
      [] [(0, 5)]
      ⟨⟨10, 3, [(1, vecZero)]⟩, ⟨10, 3, []⟩, [], [], [], 99, none⟩).pubs = [] ∧
    (UpdatePose ⟨1, 100, false, false, false, false, false, false, false, 10⟩
      ⟨true, true, true, true, true, true, true, true, true, true⟩
      ⟨CUVSLAM_Status.other 42, true, CUVSLAM_Status.success, false,
        vecZero, idCov, 0⟩
      [] [(0, 5)]
      ⟨⟨10, 3, [(1, vecZero)]⟩, ⟨10, 3, []⟩, [], [], [], 99, none⟩).st.lastTrackTs = 99 := by
  have h := C10_unknown_error_early_return
    ⟨1, 100, false, false, false, false, false, false, false, 10⟩
    ⟨true, true, true, true, true, true, true, true, true, true⟩
    ⟨CUVSLAM_Status.other 42, true, CUVSLAM_Status.success, false,
      vecZero, idCov, 0⟩
    [] [(0, 5)]
    ⟨⟨10, 3, [(1, vecZero)]⟩, ⟨10, 3, []⟩, [], [], [], 99, none⟩
    (by decide) (by decide)
  exact ⟨h.1, h.2.1, h.2.2.2.2.1⟩

end VisualSlam
